import Mathlib

/-!
Verification of the python-agent workflow orchestration core.

Shallow embedding of:
- `models/state.py`   : `AgentStep`, `FileChange`, `TestResult`, `AgentWorkflowState`
- `workflow.py`       : the Planner → Coder → Tester → Fixer loop (`AgentWorkflow`)
- `status_tracker.py` : `StatusTracker` (value-level map model plus a reference/heap
  model capturing Python's shallow `dict.copy()` semantics)
- `main.py`           : `generate_code` publish points and initial-state construction
- `agents/planner.py`, `agents/coder.py`, `agents/tester.py` : the post-LLM state
  updates and the output parsers (`_extract_tasks`, `_parse_code_output`,
  `_parse_test_output`).

The external LLM calls (`llm.ainvoke`) and the Python `json.loads` library routine
are external collaborators: they are modelled as oracle inputs (`Except` values for
"returned content"/"raised exception", and an `Option`-returning function standing
for `json.loads`, with `none` for a decode error). Everything else is translated
from the repository source.
-/

/-- AgentStep enum from models/state.py. -/
inductive AgentStep where
  | idle
  | planning
  | coding
  | testing
  | fixing
  | complete
  | failed
deriving DecidableEq, Repr

/-- FileChange from models/state.py: path, content, action, language. -/
structure FileChange where
  path : String
  content : String
  action : String
  language : String
deriving DecidableEq, Repr

/-- TestResult from models/state.py: passed, errors, output. -/
structure TestResult where
  passed : Bool
  errors : List String
  output : String
deriving DecidableEq, Repr

/-- Values stored in the `context` dict: the Fixer stores a joined error string and
an attempt number, so the value type covers strings and naturals. -/
inductive CtxVal where
  | str : String → CtxVal
  | num : Nat → CtxVal
deriving DecidableEq, Repr

/-- AgentWorkflowState from models/state.py, with the mutable `context` dict
modelled as an insertion-ordered association list. -/
structure AgentWorkflowState where
  prompt : String
  workspace_id : String
  existing_files : List (String × String)
  context : List (String × CtxVal)
  current_step : AgentStep
  attempt_count : Nat
  max_attempts : Nat
  plan : Option String
  tasks : List String
  files_to_create : List FileChange
  files_to_update : List FileChange
  test_results : Option TestResult
  validation_errors : List String
  logs : List String
  errors : List String
  success : Bool
  final_files : List FileChange
deriving DecidableEq, Repr

/-- Python dict assignment `d[k] = v` on an insertion-ordered association list:
replaces the value in place if the key exists, otherwise appends at the end. -/
def ctx_set (ctx : List (String × CtxVal)) (k : String) (v : CtxVal) :
    List (String × CtxVal) :=
  if ctx.any (fun p => p.1 = k) then
    ctx.map (fun p => if p.1 = k then (k, v) else p)
  else
    ctx ++ [(k, v)]

/-- Python dict read `d.get(k)` on the association-list model. -/
def ctx_get (ctx : List (String × CtxVal)) (k : String) : Option CtxVal :=
  (ctx.find? (fun p => p.1 = k)).map (fun p => p.2)

/-- Python `"\n".join(l)`. -/
def joinNl (l : List String) : String := String.intercalate "\n" l

/-- Python whitespace stripped by `str.strip()`. -/
def pySpace (c : Char) : Bool :=
  c = ' ' || c = '\t' || c = '\n' || c = '\r' || c = Char.ofNat 11 || c = Char.ofNat 12

/-- Python `str.strip()` over a character list. -/
def pyStrip (l : List Char) : List Char :=
  ((l.dropWhile pySpace).reverse.dropWhile pySpace).reverse

/-- Python `text.split("\n")`: splits on newline, keeping empty pieces. -/
def splitNl : List Char → List (List Char)
  | [] => [[]]
  | c :: rest =>
    let r := splitNl rest
    if c = '\n' then [] :: r
    else
      match r with
      | [] => [[c]]
      | h :: t => (c :: h) :: t

/-- Condition from planner.py `_extract_tasks`: the stripped line is non-empty and
starts with a digit, `-`, or `*`. -/
def lineLeads : List Char → Bool
  | [] => false
  | c :: _ => c.isDigit || c = '-' || c = '*'

/-- Character set of planner.py's `lstrip("0123456789.-* ")`. -/
def taskLeadChars : List Char := "0123456789.-* ".toList

/-- Default task produced by planner.py `_extract_tasks` when nothing is found. -/
def defaultTask : String := "Implement the requested feature"

/-- One line of planner.py `_extract_tasks`: strip, check the lead character,
strip the list markers, and keep the task only if longer than 10 characters. -/
def extractTaskLine (raw : List Char) : Option String :=
  let line := pyStrip raw
  if lineLeads line then
    let task := pyStrip (line.dropWhile (fun c => taskLeadChars.contains c))
    if !task.isEmpty && task.length > 10 then some (String.mk task) else none
  else none

/-- The list of tasks planner.py `_extract_tasks` collects before its fallback. -/
def extractedTasks (plan_text : String) : List String :=
  (splitNl plan_text.toList).filterMap extractTaskLine

/-- planner.py `PlannerAgent._extract_tasks`. -/
def extract_tasks (plan_text : String) : List String :=
  let tasks := extractedTasks plan_text
  if tasks = [] then [defaultTask] else tasks

/-- Literal `{` (written via its code point to keep it out of string braces). -/
def lbrace : Char := Char.ofNat 123

/-- Literal `}`. -/
def rbrace : Char := Char.ofNat 125

/-- Python `text.rfind(c)` as an optional index (Python returns -1 for "absent"). -/
def rfindIdx (l : List Char) (c : Char) : Option Nat :=
  (List.findIdx? (fun x => x = c) l.reverse).map (fun i => l.length - 1 - i)

/-- The slice `output[json_start:json_end]` taken by coder.py `_parse_code_output`
and tester.py `_parse_test_output`: `json_start = output.find("{")`,
`json_end = output.rfind("}") + 1`, guarded by `json_start >= 0` and
`json_end > json_start`. `none` models the guard failing. -/
def extractJsonRegion (output : List Char) : Option (List Char) :=
  match List.findIdx? (fun x => x = lbrace) output, rfindIdx output rbrace with
  | some i, some j => if j + 1 > i then some ((output.drop i).take (j + 1 - i)) else none
  | some _, none => none
  | none, _ => none

/-- Parsed shape of coder.py's JSON output after the call-site
`files_data.get("files_to_create", [])` / `.get("files_to_update", [])` defaults. -/
structure FilesData where
  files_to_create : List FileChange
  files_to_update : List FileChange
deriving DecidableEq, Repr

/-- coder.py `CoderAgent._parse_code_output`. `jsonLoadsFiles` stands for the
external `json.loads` applied to the slice plus the `.get` field defaults;
`none` models `json.JSONDecodeError`. -/
def parse_code_output (jsonLoadsFiles : List Char → Option FilesData)
    (output : List Char) : FilesData :=
  match extractJsonRegion output with
  | some js =>
    match jsonLoadsFiles js with
    | some d => d
    | none => ⟨[], []⟩
  | none => ⟨[], []⟩

/-- Keywords of tester.py's fallback heuristic. -/
def testKeywords : List (List Char) :=
  ["error".toList, "fail".toList, "bug".toList, "issue".toList, "problem".toList]

/-- Python `needle in hay` substring test over character lists. -/
def containsSub (hay needle : List Char) : Bool :=
  hay.tails.any (fun t => needle.isPrefixOf t)

/-- tester.py fallback: `any(word in output.lower() for word in [...])`. -/
def hasErrorKeyword (output : List Char) : Bool :=
  testKeywords.any (fun w => containsSub (output.map Char.toLower) w)

/-- The fallback TestResult built by tester.py `_parse_test_output` when no JSON
could be extracted. -/
def heuristicTestResult (output : List Char) : TestResult :=
  let he := hasErrorKeyword output
  ⟨!he, if he then ["Validation failed - see output"] else [], String.mk output⟩

/-- tester.py `TesterAgent._parse_test_output`. `jsonLoadsTest` stands for the
external `json.loads` plus the `data.get("passed", False)` /
`data.get("errors", [])` defaults; `none` models any exception in the `try`. -/
def parse_test_output (jsonLoadsTest : List Char → Option (Bool × List String))
    (output : List Char) : TestResult :=
  match extractJsonRegion output with
  | some js =>
    match jsonLoadsTest js with
    | some pe => ⟨pe.1, pe.2, String.mk output⟩
    | none => heuristicTestResult output
  | none => heuristicTestResult output

/-- planner.py `PlannerAgent.plan` after the LLM boundary: `r` is the LLM reply
content (`Except.error` models a raised infrastructure failure caught by the
agent's own `except` block). The success flag is reset before the `try`. -/
def planner_plan (r : Except String String) (s : AgentWorkflowState) :
    AgentWorkflowState :=
  let s := { s with success := false }
  match r with
  | .ok plan_text =>
    let tasks := extract_tasks plan_text
    { s with plan := some plan_text,
             tasks := tasks,
             current_step := AgentStep.planning,
             logs := s.logs ++
               ["[Planner] Generated plan with " ++ toString tasks.length ++ " tasks"] }
  | .error e =>
    { s with errors := s.errors ++ ["[Planner Error] " ++ e],
             logs := s.logs ++ ["[Planner] Failed: " ++ e] }

/-- workflow.py `AgentWorkflow._planner_node`: log line, then the agent. -/
def planner_node (r : Except String String) (s : AgentWorkflowState) :
    AgentWorkflowState :=
  planner_plan r { s with logs := s.logs ++ ["[Workflow] Running Planner agent..."] }

/-- coder.py `CoderAgent.code` after the LLM boundary: `r` carries the parsed
`_parse_code_output` result of the reply (that parse is total, see the parser
theorems), or the message of a raised failure caught by the `except` block. -/
def coder_code (r : Except String FilesData) (s : AgentWorkflowState) :
    AgentWorkflowState :=
  match r with
  | .ok fd =>
    { s with files_to_create := fd.files_to_create,
             files_to_update := fd.files_to_update,
             current_step := AgentStep.coding,
             logs := s.logs ++
               ["[Coder] Generated " ++
                toString (fd.files_to_create.length + fd.files_to_update.length) ++
                " files"] }
  | .error e =>
    { s with errors := s.errors ++ ["[Coder Error] " ++ e],
             logs := s.logs ++ ["[Coder] Failed: " ++ e] }

/-- workflow.py `AgentWorkflow._coder_node`. -/
def coder_node (r : Except String FilesData) (s : AgentWorkflowState) :
    AgentWorkflowState :=
  coder_code r { s with logs := s.logs ++ ["[Workflow] Running Coder agent..."] }

/-- tester.py `TesterAgent.test` after the LLM boundary: `r` carries the parsed
`_parse_test_output` result, or the message of a raised failure caught by the
`except` block. -/
def tester_test (r : Except String TestResult) (s : AgentWorkflowState) :
    AgentWorkflowState :=
  match r with
  | .ok tr =>
    let s := { s with test_results := some tr,
                      validation_errors := tr.errors,
                      current_step := AgentStep.testing }
    if tr.passed then
      { s with success := true,
               final_files := s.files_to_create ++ s.files_to_update,
               logs := s.logs ++ ["[Tester] All tests passed ✓"] }
    else
      let s := { s with success := false,
                        logs := s.logs ++
                          ["[Tester] Found " ++ toString tr.errors.length ++ " errors"] }
      if s.attempt_count < s.max_attempts then
        { s with logs := s.logs ++
            ["[Tester] Will retry (attempt " ++ toString (s.attempt_count + 1) ++ "/" ++
             toString s.max_attempts ++ ")"] }
      else
        { s with logs := s.logs ++ ["[Tester] Max attempts reached, failing"],
                 current_step := AgentStep.failed }
  | .error e =>
    { s with errors := s.errors ++ ["[Tester Error] " ++ e],
             logs := s.logs ++ ["[Tester] Failed: " ++ e],
             success := false }

/-- workflow.py `AgentWorkflow._tester_node`. -/
def tester_node (r : Except String TestResult) (s : AgentWorkflowState) :
    AgentWorkflowState :=
  tester_test r { s with logs := s.logs ++ ["[Workflow] Running Tester agent..."] }

/-- Python rendering of `state.get("plan", "")` inside the fixer f-string: the
`plan` key is always present, so a `None` value renders as the text "None". -/
def optPlanStr : Option String → String
  | some p => p
  | none => "None"

/-- The fixed-format block workflow.py `_fixer_node` appends to `plan`. -/
def fixer_block (errs : List String) : String :=
  "\n\nCRITICAL: Previous attempt failed with these errors:\n" ++ joinNl errs ++
  "\n\nYou MUST fix these errors in the next implementation. Review the errors carefully and ensure the code addresses each issue."

/-- workflow.py `AgentWorkflow._fixer_node`. -/
def fixer_node (s : AgentWorkflowState) : AgentWorkflowState :=
  let newCount := s.attempt_count + 1
  let ec := joinNl s.validation_errors
  { s with attempt_count := newCount,
           logs := s.logs ++
             ["[Workflow] Retry attempt " ++ toString newCount ++ "/" ++
              toString s.max_attempts],
           plan := some (optPlanStr s.plan ++ fixer_block s.validation_errors),
           context := ctx_set (ctx_set s.context "previous_errors" (CtxVal.str ec))
                        "retry_attempt" (CtxVal.num newCount) }

/-- workflow.py `AgentWorkflow._should_retry`: mutates `current_step` (and on
ceiling exhaustion `success` and `logs`) and returns the route string
("retry" or "end"), exactly as the source decision function. -/
def should_retry (s : AgentWorkflowState) : AgentWorkflowState × String :=
  if s.success then
    ({ s with current_step := AgentStep.complete }, "end")
  else if s.max_attempts ≤ s.attempt_count + 1 then
    ({ s with current_step := AgentStep.failed,
              success := false,
              logs := s.logs ++
                ["[Workflow] Max attempts (" ++ toString s.max_attempts ++
                 ") reached - failing"] }, "end")
  else
    ({ s with current_step := AgentStep.fixing }, "retry")

/-- External inputs of one workflow run: the planner LLM reply and, per attempt
index (the `attempt_count` at that attempt), the parsed coder and tester
results. `Except.error` models a raised infrastructure failure. -/
structure RunOracle where
  planner : Except String String
  coder : Nat → Except String FilesData
  tester : Nat → Except String TestResult

/-- Whether a tester outcome reports a pass (a raised failure cannot pass). -/
def passedOf : Except String TestResult → Bool
  | .ok tr => tr.passed
  | .error _ => false

/-- Result of the Code/Test/decide loop: final state, number of Code/Test
executions performed, and the `current_step` value after each node and after
the routing decision (the transition trace). -/
structure LoopOut where
  state : AgentWorkflowState
  execs : Nat
  trace : List AgentStep

/-- The coder → tester → `_should_retry` → fixer loop of the compiled LangGraph
graph in workflow.py. Fuel-indexed; `max_attempts` fuel is proved sufficient. -/
def loop (o : RunOracle) : Nat → AgentWorkflowState → LoopOut
  | 0, s => ⟨s, 0, []⟩
  | f + 1, s =>
    let s1 := coder_node (o.coder s.attempt_count) s
    let s2 := tester_node (o.tester s.attempt_count) s1
    let pr := should_retry s2
    if pr.2 = "retry" then
      let rest := loop o f (fixer_node pr.1)
      ⟨rest.state, rest.execs + 1,
       s1.current_step :: s2.current_step :: pr.1.current_step :: rest.trace⟩
    else
      ⟨pr.1, 1, [s1.current_step, s2.current_step, pr.1.current_step]⟩

/-- workflow.py `execute` initialization (lines 144-149): step to Planning,
counters zeroed, success false (`logs`/`errors` keep the caller's lists). -/
def initState (s0 : AgentWorkflowState) : AgentWorkflowState :=
  { s0 with current_step := AgentStep.planning, attempt_count := 0, success := false }

/-- A full run: final state, Code/Test execution count, and the step trace
(starting from the caller-supplied step, then the initialization and each
node/decision). -/
structure RunResult where
  state : AgentWorkflowState
  execs : Nat
  trace : List AgentStep

/-- workflow.py `AgentWorkflow.execute` (the graph `ainvoke` path): initialize,
run the planner node, then the Code/Test loop. -/
def execute (o : RunOracle) (s0 : AgentWorkflowState) : RunResult :=
  let si := initState s0
  let sp := planner_node o.planner si
  let lo := loop o si.max_attempts sp
  ⟨lo.state, lo.execs, s0.current_step :: si.current_step :: sp.current_step :: lo.trace⟩

/-- workflow.py `execute` `except` branch (lines 156-160): record the fault,
force Failed and non-success, return the best-available partial state. -/
def engineCatch (ps : AgentWorkflowState) (e : String) : AgentWorkflowState :=
  { ps with errors := ps.errors ++ ["[Workflow Error] " ++ e],
            current_step := AgentStep.failed,
            success := false }

/-- A terminal step of the state machine. -/
def isTerminal (s : AgentWorkflowState) : Prop :=
  s.current_step = AgentStep.complete ∨ s.current_step = AgentStep.failed

instance (s : AgentWorkflowState) : Decidable (isTerminal s) := by
  unfold isTerminal
  infer_instance

/-- Request body of main.py `generate_code` (`GenerateCodeRequest`). -/
structure GenRequest where
  prompt : String
  workspace_id : String
  existing_files : List (String × String)
  context : List (String × CtxVal)

/-- The initial `AgentWorkflowState` dict built in main.py lines 72-90. -/
def mkInitialState (req : GenRequest) : AgentWorkflowState :=
  { prompt := req.prompt,
    workspace_id := req.workspace_id,
    existing_files := req.existing_files,
    context := req.context,
    current_step := AgentStep.idle,
    attempt_count := 0,
    max_attempts := 3,
    plan := none,
    tasks := [],
    files_to_create := [],
    files_to_update := [],
    test_results := none,
    validation_errors := [],
    logs := [],
    errors := [],
    success := false,
    final_files := [] }

/-- The states main.py `generate_code` passes to `tracker.update` for the
request's workspace, in order: the initial state (line 94) and the state
returned by `workflow.execute` (line 101). No other publish call exists. -/
def publishedStates (o : RunOracle) (req : GenRequest) : List AgentWorkflowState :=
  [mkInitialState req, (execute o (mkInitialState req)).state]

/-- The summary dict of status_tracker.py `get_summary`. The `errors` and
`attempt_count` keys are absent from the unknown-workspace summary, hence
`Option`. Progress is ℚ: the Python side compares only the exact literals
0.0, 0.2, 0.5, 0.8, 1.0, which float arithmetic represents and orders
exactly as the rationals do. -/
structure StatusSummary where
  status : String
  current_step : String
  progress : ℚ
  logs : List String
  files_generated : List FileChange
  errors : Option (List String)
  attempt_count : Option Nat
deriving DecidableEq, Repr

/-- The `progress_map` dict in status_tracker.py lines 50-58. -/
def progress_map : AgentStep → ℚ
  | AgentStep.idle => 0
  | AgentStep.planning => 0.2
  | AgentStep.coding => 0.5
  | AgentStep.testing => 0.8
  | AgentStep.fixing => 0.8
  | AgentStep.complete => 1
  | AgentStep.failed => 0.8

/-- `current_step.value`: the lowercase wire tag of the str-enum. -/
def step_value : AgentStep → String
  | AgentStep.idle => "idle"
  | AgentStep.planning => "planning"
  | AgentStep.coding => "coding"
  | AgentStep.testing => "testing"
  | AgentStep.fixing => "fixing"
  | AgentStep.complete => "complete"
  | AgentStep.failed => "failed"

/-- The summary dict returned by `get_summary` for an unknown workspace
(status_tracker.py lines 40-46). -/
def emptySummary : StatusSummary :=
  ⟨"idle", "none", 0, [], [], none, none⟩

/-- The summary dict `get_summary` builds from a stored state
(status_tracker.py lines 66-76). -/
def state_summary (st : AgentWorkflowState) : StatusSummary :=
  ⟨if st.success then "complete"
   else if st.current_step = AgentStep.failed then "failed" else "processing",
   step_value st.current_step,
   progress_map st.current_step,
   st.logs,
   st.final_files,
   some st.errors,
   some st.attempt_count⟩

/-- status_tracker.py `StatusTracker.get` on the value-level map model
(`self._states.get(workspace_id)`). -/
def tracker_get (m : List (String × AgentWorkflowState)) (ws : String) :
    Option AgentWorkflowState :=
  (m.find? (fun p => p.1 = ws)).map (fun p => p.2)

/-- status_tracker.py `StatusTracker.get_summary`. -/
def get_summary (m : List (String × AgentWorkflowState)) (ws : String) :
    StatusSummary :=
  match tracker_get m ws with
  | none => emptySummary
  | some st => state_summary st

/-- Number of stage transitions along a step trace: adjacent unequal steps. -/
def count_changes : List AgentStep → Nat
  | a :: b :: rest => (if a = b then 0 else 1) + count_changes (b :: rest)
  | _ => 0

/-- Stage transitions performed by one `generate_code` run. -/
def num_transitions (o : RunOracle) (req : GenRequest) : Nat :=
  count_changes (execute o (mkInitialState req)).trace

/-- Heap of Python list objects, addressed by reference. Models the list
values (`logs`, `errors`, ...) that live inside the state dict by reference. -/
structure ListHeap where
  lists : Nat → List String

/-- A `WorkflowState` dict as Python holds it: top-level keys bind values
directly, list-valued keys bind references into the heap. Only the fields
needed to observe `StatusTracker.update`'s copy semantics are carried. -/
structure RefWorkflowState where
  current_step : AgentStep
  success : Bool
  logs : Nat
  errors : Nat
deriving DecidableEq, Repr

/-- The `StatusTracker._states` map of the reference model. -/
structure RefStatusStore where
  states : String → Option RefWorkflowState

/-- status_tracker.py `StatusTracker.update`:
`self._states[workspace_id] = state.copy()`. `dict.copy()` is a shallow copy:
it produces a fresh dict with the same top-level values, so list-valued keys
keep pointing at the same heap cells. Storing the `RefWorkflowState` record by
value (fresh dict) with its `Nat` references unchanged (same list objects) is
exactly that. -/
def tracker_update (t : RefStatusStore) (ws : String) (st : RefWorkflowState) :
    RefStatusStore :=
  ⟨fun w => if w = ws then some st else t.states w⟩

/-- In-place Python `state["logs"].append(line)` (or any list-cell append):
mutates the heap cell, leaving every dict that references it aliased. -/
def heap_append (h : ListHeap) (r : Nat) (line : String) : ListHeap :=
  ⟨fun n => if n = r then h.lists r ++ [line] else h.lists n⟩

/-- Reading the log list a snapshot refers to. -/
def read_logs (h : ListHeap) (st : RefWorkflowState) : List String :=
  h.lists st.logs

/-- Concrete heap for the C3 counterexample: cell 0 holds one log line. -/
def c3heap0 : ListHeap := ⟨fun n => if n = 0 then ["start"] else []⟩

/-- Concrete live state for the C3 counterexample. -/
def c3live : RefWorkflowState :=
  { current_step := AgentStep.planning, success := false, logs := 0, errors := 1 }

/-- Store after `publish("ws1", live)`. -/
def c3store : RefStatusStore := tracker_update ⟨fun _ => none⟩ "ws1" c3live

/-- Heap after the live workflow appends one more log line post-publish. -/
def c3heap1 : ListHeap := heap_append c3heap0 c3live.logs "later line"

/-- Oracle where planning, coding and the first test all succeed. -/
def oraclePass : RunOracle :=
  { planner := Except.ok "1. Build the requested feature end to end",
    coder := fun _ => Except.ok ⟨[⟨"app.py", "print(1)", "create", "python"⟩], []⟩,
    tester := fun _ => Except.ok ⟨true, [], "ok"⟩ }

/-- Oracle where every attempt fails validation. -/
def oracleFail : RunOracle :=
  { planner := Except.ok "1. Build the requested feature end to end",
    coder := fun _ => Except.ok ⟨[⟨"app.py", "print(1)", "create", "python"⟩], []⟩,
    tester := fun _ => Except.ok ⟨false, ["TypeError: boom"], "bad"⟩ }

/-- Oracle whose planner raises an infrastructure failure. -/
def oraclePlanBoom : RunOracle :=
  { planner := Except.error "connection refused",
    coder := fun _ => Except.ok ⟨[], []⟩,
    tester := fun _ => Except.ok ⟨false, ["no files"], "bad"⟩ }

/-- Concrete request used by witnesses and counterexamples. -/
def req0 : GenRequest :=
  { prompt := "make app", workspace_id := "ws-1", existing_files := [], context := [] }

theorem planner_node_attempt (r : Except String String) (s : AgentWorkflowState) :
    (planner_node r s).attempt_count = s.attempt_count := by
  cases r <;> rfl

theorem planner_node_max (r : Except String String) (s : AgentWorkflowState) :
    (planner_node r s).max_attempts = s.max_attempts := by
  cases r <;> rfl

theorem coder_node_attempt (r : Except String FilesData) (s : AgentWorkflowState) :
    (coder_node r s).attempt_count = s.attempt_count := by
  cases r <;> rfl

theorem coder_node_max (r : Except String FilesData) (s : AgentWorkflowState) :
    (coder_node r s).max_attempts = s.max_attempts := by
  cases r <;> rfl

theorem tester_node_attempt (r : Except String TestResult) (s : AgentWorkflowState) :
    (tester_node r s).attempt_count = s.attempt_count := by
  cases r with
  | ok tr =>
    by_cases hp : tr.passed <;>
      simp [tester_node, tester_test, hp] <;> split <;> rfl
  | error e => rfl

theorem tester_node_max (r : Except String TestResult) (s : AgentWorkflowState) :
    (tester_node r s).max_attempts = s.max_attempts := by
  cases r with
  | ok tr =>
    by_cases hp : tr.passed <;>
      simp [tester_node, tester_test, hp] <;> split <;> rfl
  | error e => rfl

theorem tester_node_success (r : Except String TestResult) (s : AgentWorkflowState) :
    (tester_node r s).success = passedOf r := by
  cases r with
  | ok tr =>
    by_cases hp : tr.passed <;>
      simp [tester_node, tester_test, passedOf, hp] <;> split <;> rfl
  | error e => rfl

theorem tester_node_passed_final_files (r : Except String TestResult)
    (s : AgentWorkflowState) (h : passedOf r = true) :
    (tester_node r s).final_files = s.files_to_create ++ s.files_to_update := by
  cases r with
  | ok tr => simp [passedOf] at h; simp [tester_node, tester_test, h]
  | error e => simp [passedOf] at h

theorem should_retry_success (s : AgentWorkflowState) (h : s.success = true) :
    should_retry s = ({ s with current_step := AgentStep.complete }, "end") := by
  simp [should_retry, h]

theorem should_retry_stopfail (s : AgentWorkflowState) (h : s.success = false)
    (h2 : s.max_attempts ≤ s.attempt_count + 1) :
    should_retry s =
      ({ s with current_step := AgentStep.failed,
                success := false,
                logs := s.logs ++
                  ["[Workflow] Max attempts (" ++ toString s.max_attempts ++
                   ") reached - failing"] }, "end") := by
  simp [should_retry, h, h2]

theorem should_retry_retry (s : AgentWorkflowState) (h : s.success = false)
    (h2 : s.attempt_count + 1 < s.max_attempts) :
    should_retry s = ({ s with current_step := AgentStep.fixing }, "retry") := by
  have h3 : ¬ s.max_attempts ≤ s.attempt_count + 1 := by omega
  simp [should_retry, h, h3]

theorem should_retry_fst_attempt (s : AgentWorkflowState) :
    (should_retry s).1.attempt_count = s.attempt_count := by
  unfold should_retry
  split
  · rfl
  · split <;> rfl

theorem should_retry_fst_max (s : AgentWorkflowState) :
    (should_retry s).1.max_attempts = s.max_attempts := by
  unfold should_retry
  split
  · rfl
  · split <;> rfl

theorem fixer_node_attempt (s : AgentWorkflowState) :
    (fixer_node s).attempt_count = s.attempt_count + 1 := rfl

theorem fixer_node_max (s : AgentWorkflowState) :
    (fixer_node s).max_attempts = s.max_attempts := rfl

theorem end_ne_retry : ("end" : String) ≠ "retry" := by decide

theorem planner_node_logs (r : Except String String) (s : AgentWorkflowState) :
    ∃ t, (planner_node r s).logs = s.logs ++ t := by
  cases r <;> simp [planner_node, planner_plan]

theorem planner_node_errors (r : Except String String) (s : AgentWorkflowState) :
    ∃ t, (planner_node r s).errors = s.errors ++ t := by
  cases r with
  | ok p => exact ⟨[], by simp [planner_node, planner_plan]⟩
  | error e => exact ⟨["[Planner Error] " ++ e], by simp [planner_node, planner_plan]⟩

theorem coder_node_logs (r : Except String FilesData) (s : AgentWorkflowState) :
    ∃ t, (coder_node r s).logs =
      s.logs ++ "[Workflow] Running Coder agent..." :: t := by
  cases r <;> simp [coder_node, coder_code]

theorem coder_node_errors (r : Except String FilesData) (s : AgentWorkflowState) :
    ∃ t, (coder_node r s).errors = s.errors ++ t := by
  cases r with
  | ok fd => exact ⟨[], by simp [coder_node, coder_code]⟩
  | error e => exact ⟨["[Coder Error] " ++ e], by simp [coder_node, coder_code]⟩

theorem tester_node_logs (r : Except String TestResult) (s : AgentWorkflowState) :
    ∃ t, (tester_node r s).logs = s.logs ++ t := by
  cases r with
  | ok tr =>
    by_cases hp : tr.passed <;> simp [tester_node, tester_test, hp] <;> split <;> simp
  | error e => simp [tester_node, tester_test]

theorem tester_node_errors (r : Except String TestResult) (s : AgentWorkflowState) :
    ∃ t, (tester_node r s).errors = s.errors ++ t := by
  cases r with
  | ok tr =>
    refine ⟨[], ?_⟩
    by_cases hp : tr.passed <;> simp [tester_node, tester_test, hp] <;> split <;> simp
  | error e => exact ⟨["[Tester Error] " ++ e], by simp [tester_node, tester_test]⟩

theorem should_retry_fst_logs (s : AgentWorkflowState) :
    ∃ t, (should_retry s).1.logs = s.logs ++ t := by
  unfold should_retry
  split
  · exact ⟨[], by simp⟩
  · split
    · exact ⟨["[Workflow] Max attempts (" ++ toString s.max_attempts ++
        ") reached - failing"], by simp⟩
    · exact ⟨[], by simp⟩

theorem should_retry_fst_errors (s : AgentWorkflowState) :
    (should_retry s).1.errors = s.errors := by
  unfold should_retry
  split
  · rfl
  · split <;> rfl

theorem fixer_node_logs (s : AgentWorkflowState) :
    (fixer_node s).logs = s.logs ++
      ["[Workflow] Retry attempt " ++ toString (s.attempt_count + 1) ++ "/" ++
       toString s.max_attempts] := rfl

theorem fixer_node_errors (s : AgentWorkflowState) :
    (fixer_node s).errors = s.errors := rfl

theorem loop_logs_mono (o : RunOracle) :
    ∀ (f : Nat) (s : AgentWorkflowState), ∃ t, (loop o f s).state.logs = s.logs ++ t := by
  intro f
  induction f with
  | zero => intro s; exact ⟨[], by simp [loop]⟩
  | succ f ih =>
    intro s
    simp only [loop]
    obtain ⟨t1, h1⟩ := coder_node_logs (o.coder s.attempt_count) s
    obtain ⟨t2, h2⟩ :=
      tester_node_logs (o.tester s.attempt_count) (coder_node (o.coder s.attempt_count) s)
    obtain ⟨t3, h3⟩ :=
      should_retry_fst_logs
        (tester_node (o.tester s.attempt_count) (coder_node (o.coder s.attempt_count) s))
    split
    · obtain ⟨t4, h4⟩ := ih
        (fixer_node (should_retry (tester_node (o.tester s.attempt_count)
          (coder_node (o.coder s.attempt_count) s))).1)
    
      refine ⟨"[Workflow] Running Coder agent..." :: t1 ++ t2 ++ t3 ++
        ["[Workflow] Retry attempt " ++
         toString ((should_retry (tester_node (o.tester s.attempt_count)
           (coder_node (o.coder s.attempt_count) s))).1.attempt_count + 1) ++ "/" ++
         toString ((should_retry (tester_node (o.tester s.attempt_count)
           (coder_node (o.coder s.attempt_count) s))).1.max_attempts)] ++ t4, ?_⟩
      rw [h4, fixer_node_logs, h3, h2, h1]
      simp
    · exact ⟨"[Workflow] Running Coder agent..." :: t1 ++ t2 ++ t3, by
        rw [h3, h2, h1]; simp⟩

theorem loop_errors_mono (o : RunOracle) :
    ∀ (f : Nat) (s : AgentWorkflowState), ∃ t, (loop o f s).state.errors = s.errors ++ t := by
  intro f
  induction f with
  | zero => intro s; exact ⟨[], by simp [loop]⟩
  | succ f ih =>
    intro s
    simp only [loop]
    obtain ⟨t1, h1⟩ := coder_node_errors (o.coder s.attempt_count) s
    obtain ⟨t2, h2⟩ :=
      tester_node_errors (o.tester s.attempt_count) (coder_node (o.coder s.attempt_count) s)
    have h3 := should_retry_fst_errors
      (tester_node (o.tester s.attempt_count) (coder_node (o.coder s.attempt_count) s))
    split
    · obtain ⟨t4, h4⟩ := ih
        (fixer_node (should_retry (tester_node (o.tester s.attempt_count)
          (coder_node (o.coder s.attempt_count) s))).1)
      refine ⟨t1 ++ t2 ++ t4, ?_⟩
      rw [h4, fixer_node_errors, h3, h2, h1]
      simp
    · exact ⟨t1 ++ t2, by rw [h3, h2, h1]; simp⟩

theorem loop_succ_eq (o : RunOracle) (f : Nat) (s s1 s2 : AgentWorkflowState)
    (pr : AgentWorkflowState × String)
    (h1 : coder_node (o.coder s.attempt_count) s = s1)
    (h2 : tester_node (o.tester s.attempt_count) s1 = s2)
    (h3 : should_retry s2 = pr) :
    loop o (f + 1) s =
      if pr.2 = "retry" then
        ⟨(loop o f (fixer_node pr.1)).state, (loop o f (fixer_node pr.1)).execs + 1,
         s1.current_step :: s2.current_step :: pr.1.current_step ::
           (loop o f (fixer_node pr.1)).trace⟩
      else
        ⟨pr.1, 1, [s1.current_step, s2.current_step, pr.1.current_step]⟩ := by
  subst h1; subst h2; subst h3; rfl

theorem should_retry_route_retry (s : AgentWorkflowState) :
    (should_retry s).2 = "retry" ↔
      s.success = false ∧ s.attempt_count + 1 < s.max_attempts := by
  unfold should_retry
  split
  next hs =>
    constructor
    · intro h
      have h' : ("end" : String) = "retry" := h
      exact absurd h' (by decide)
    · rintro ⟨h1, -⟩; rw [hs] at h1; cases h1
  next hs =>
    rw [Bool.not_eq_true] at hs
    split
    next h2 =>
      constructor
      · intro h
        have h' : ("end" : String) = "retry" := h
        exact absurd h' (by decide)
      · rintro ⟨-, h3⟩; omega
    next h2 =>
      constructor
      · intro _; exact ⟨hs, by omega⟩
      · intro _; rfl

theorem should_retry_route_end_failed (s : AgentWorkflowState) :
    ((should_retry s).2 = "end" ∧ (should_retry s).1.current_step = AgentStep.failed) ↔
      (s.success = false ∧ s.max_attempts ≤ s.attempt_count + 1) := by
  unfold should_retry
  split
  next hs =>
    constructor
    · rintro ⟨-, h⟩
      have h' : AgentStep.complete = AgentStep.failed := h
      exact absurd h' (by decide)
    · rintro ⟨h1, -⟩; rw [hs] at h1; cases h1
  next hs =>
    rw [Bool.not_eq_true] at hs
    split
    next h2 =>
      constructor
      · intro _; exact ⟨hs, h2⟩
      · intro _; exact ⟨rfl, rfl⟩
    next h2 =>
      constructor
      · rintro ⟨-, h⟩
        have h' : AgentStep.fixing = AgentStep.failed := h
        exact absurd h' (by decide)
      · rintro ⟨-, h3⟩; omega

theorem loop_execs_le (o : RunOracle) :
    ∀ (f : Nat) (s : AgentWorkflowState), (loop o f s).execs ≤ f := by
  intro f
  induction f with
  | zero => intro s; simp [loop]
  | succ f ih =>
    intro s
    rw [loop_succ_eq o f s _ _ _ rfl rfl rfl]
    split
    · exact Nat.succ_le_succ (ih _)
    · exact Nat.succ_le_succ (Nat.zero_le f)

theorem loop_attempt_lt (o : RunOracle) :
    ∀ (f : Nat) (s : AgentWorkflowState), s.attempt_count < s.max_attempts →
      (loop o f s).state.attempt_count < s.max_attempts := by
  intro f
  induction f with
  | zero => intro s h; exact h
  | succ f ih =>
    intro s h
    rw [loop_succ_eq o f s _ _ _ rfl rfl rfl]
    have ha2 : (tester_node (o.tester s.attempt_count)
        (coder_node (o.coder s.attempt_count) s)).attempt_count = s.attempt_count := by
      rw [tester_node_attempt, coder_node_attempt]
    have hm2 : (tester_node (o.tester s.attempt_count)
        (coder_node (o.coder s.attempt_count) s)).max_attempts = s.max_attempts := by
      rw [tester_node_max, coder_node_max]
    split
    next hroute =>
      have hr := (should_retry_route_retry _).mp hroute
      rw [ha2, hm2] at hr
      have hlt : (fixer_node (should_retry (tester_node (o.tester s.attempt_count)
          (coder_node (o.coder s.attempt_count) s))).1).attempt_count <
          (fixer_node (should_retry (tester_node (o.tester s.attempt_count)
          (coder_node (o.coder s.attempt_count) s))).1).max_attempts := by
        rw [fixer_node_attempt, fixer_node_max, should_retry_fst_attempt,
          should_retry_fst_max, ha2, hm2]
        omega
      have hres := ih _ hlt
      rw [fixer_node_max, should_retry_fst_max, hm2] at hres
      exact hres
    next hroute =>
      show (should_retry _).1.attempt_count < s.max_attempts
      rw [should_retry_fst_attempt, ha2]
      omega

theorem loop_terminal (o : RunOracle) :
    ∀ (f : Nat) (s : AgentWorkflowState), 1 ≤ f →
      s.max_attempts ≤ s.attempt_count + f → isTerminal (loop o f s).state := by
  intro f
  induction f with
  | zero => intro s h; omega
  | succ f ih =>
    intro s _ hbound
    rw [loop_succ_eq o f s _ _ _ rfl rfl rfl]
    have ha2 : (tester_node (o.tester s.attempt_count)
        (coder_node (o.coder s.attempt_count) s)).attempt_count = s.attempt_count := by
      rw [tester_node_attempt, coder_node_attempt]
    have hm2 : (tester_node (o.tester s.attempt_count)
        (coder_node (o.coder s.attempt_count) s)).max_attempts = s.max_attempts := by
      rw [tester_node_max, coder_node_max]
    split
    next hroute =>
      have hr := (should_retry_route_retry _).mp hroute
      rw [ha2, hm2] at hr
      apply ih
      · omega
      · rw [fixer_node_max, fixer_node_attempt, should_retry_fst_max,
          should_retry_fst_attempt, ha2, hm2]
        omega
    next hroute =>
      show isTerminal (should_retry _).1
      by_cases hs : (tester_node (o.tester s.attempt_count)
          (coder_node (o.coder s.attempt_count) s)).success = true
      · rw [should_retry_success _ hs]; left; rfl
      · rw [Bool.not_eq_true] at hs
        have hge : (tester_node (o.tester s.attempt_count)
            (coder_node (o.coder s.attempt_count) s)).max_attempts ≤
            (tester_node (o.tester s.attempt_count)
            (coder_node (o.coder s.attempt_count) s)).attempt_count + 1 := by
          by_contra hlt
          exact hroute ((should_retry_route_retry _).mpr ⟨hs, by omega⟩)
        rw [should_retry_stopfail _ hs hge]; right; rfl

theorem loop_execs_all_fail (o : RunOracle)
    (hall : ∀ k, passedOf (o.tester k) = false) :
    ∀ (f : Nat) (s : AgentWorkflowState), s.attempt_count + f = s.max_attempts →
      (loop o f s).execs = f := by
  intro f
  induction f with
  | zero => intro s _; rfl
  | succ f ih =>
    intro s hsum
    rw [loop_succ_eq o f s _ _ _ rfl rfl rfl]
    have ha2 : (tester_node (o.tester s.attempt_count)
        (coder_node (o.coder s.attempt_count) s)).attempt_count = s.attempt_count := by
      rw [tester_node_attempt, coder_node_attempt]
    have hm2 : (tester_node (o.tester s.attempt_count)
        (coder_node (o.coder s.attempt_count) s)).max_attempts = s.max_attempts := by
      rw [tester_node_max, coder_node_max]
    have hsucc : (tester_node (o.tester s.attempt_count)
        (coder_node (o.coder s.attempt_count) s)).success = false := by
      rw [tester_node_success]
      exact hall _
    split
    next hroute =>
      have hrec : (loop o f (fixer_node (should_retry (tester_node (o.tester s.attempt_count)
          (coder_node (o.coder s.attempt_count) s))).1)).execs = f := by
        apply ih
        rw [fixer_node_attempt, fixer_node_max, should_retry_fst_attempt,
          should_retry_fst_max, ha2, hm2]
        have hr := (should_retry_route_retry _).mp hroute
        rw [ha2, hm2] at hr
        omega
      show (loop o f _).execs + 1 = f + 1
      rw [hrec]
    next hroute =>
      show 1 = f + 1
      have hnr : ¬ ((tester_node (o.tester s.attempt_count)
          (coder_node (o.coder s.attempt_count) s)).success = false ∧
          (tester_node (o.tester s.attempt_count)
          (coder_node (o.coder s.attempt_count) s)).attempt_count + 1 <
          (tester_node (o.tester s.attempt_count)
          (coder_node (o.coder s.attempt_count) s)).max_attempts) :=
        fun hc => hroute ((should_retry_route_retry _).mpr hc)
      rw [ha2, hm2, hsucc] at hnr
      have : ¬ s.attempt_count + 1 < s.max_attempts := fun hlt => hnr ⟨rfl, hlt⟩
      omega

theorem loop_logs_mem (o : RunOracle) (f : Nat) (s : AgentWorkflowState) (a : String)
    (h : a ∈ s.logs) : a ∈ (loop o f s).state.logs := by
  obtain ⟨t, ht⟩ := loop_logs_mono o f s
  rw [ht]
  exact List.mem_append_left t h

theorem loop_errors_mem (o : RunOracle) (f : Nat) (s : AgentWorkflowState) (a : String)
    (h : a ∈ s.errors) : a ∈ (loop o f s).state.errors := by
  obtain ⟨t, ht⟩ := loop_errors_mono o f s
  rw [ht]
  exact List.mem_append_left t h

theorem loop_run_coder_log (o : RunOracle) (f : Nat) (s : AgentWorkflowState)
    (hf : 1 ≤ f) :
    "[Workflow] Running Coder agent..." ∈ (loop o f s).state.logs := by
  obtain ⟨f', rfl⟩ : ∃ f', f = f' + 1 := ⟨f - 1, by omega⟩
  rw [loop_succ_eq o f' s _ _ _ rfl rfl rfl]
  obtain ⟨t1, h1⟩ := coder_node_logs (o.coder s.attempt_count) s
  have hm1 : "[Workflow] Running Coder agent..." ∈
      (coder_node (o.coder s.attempt_count) s).logs := by
    rw [h1]; simp
  obtain ⟨t2, h2⟩ :=
    tester_node_logs (o.tester s.attempt_count) (coder_node (o.coder s.attempt_count) s)
  have hm2 : "[Workflow] Running Coder agent..." ∈
      (tester_node (o.tester s.attempt_count)
        (coder_node (o.coder s.attempt_count) s)).logs := by
    rw [h2]; exact List.mem_append_left t2 hm1
  obtain ⟨t3, h3⟩ :=
    should_retry_fst_logs
      (tester_node (o.tester s.attempt_count) (coder_node (o.coder s.attempt_count) s))
  have hm3 : "[Workflow] Running Coder agent..." ∈
      (should_retry (tester_node (o.tester s.attempt_count)
        (coder_node (o.coder s.attempt_count) s))).1.logs := by
    rw [h3]; exact List.mem_append_left t3 hm2
  split
  · show _ ∈ (loop o f' _).state.logs
    apply loop_logs_mem
    rw [fixer_node_logs]
    exact List.mem_append_left _ hm3
  · exact hm3

theorem loop_pass (o : RunOracle) (f : Nat) (s : AgentWorkflowState)
    (hf : 1 ≤ f) (hp : passedOf (o.tester s.attempt_count) = true) :
    (loop o f s).state.current_step = AgentStep.complete ∧
    (loop o f s).state.success = true ∧
    (loop o f s).state.final_files =
      (coder_node (o.coder s.attempt_count) s).files_to_create ++
      (coder_node (o.coder s.attempt_count) s).files_to_update ∧
    (loop o f s).execs = 1 := by
  obtain ⟨f', rfl⟩ : ∃ f', f = f' + 1 := ⟨f - 1, by omega⟩
  rw [loop_succ_eq o f' s _ _ _ rfl rfl rfl]
  have hsucc : (tester_node (o.tester s.attempt_count)
      (coder_node (o.coder s.attempt_count) s)).success = true := by
    rw [tester_node_success]
    exact hp
  have hff : (tester_node (o.tester s.attempt_count)
      (coder_node (o.coder s.attempt_count) s)).final_files =
      (coder_node (o.coder s.attempt_count) s).files_to_create ++
      (coder_node (o.coder s.attempt_count) s).files_to_update := by
    exact tester_node_passed_final_files _ _ hp
  split
  next hroute =>
    have hr := (should_retry_route_retry _).mp hroute
    rw [hr.1] at hsucc
    cases hsucc
  next hroute =>
    rw [should_retry_success _ hsucc]
    exact ⟨rfl, hsucc, hff, rfl⟩

theorem execute_terminal (o : RunOracle) (s0 : AgentWorkflowState)
    (h : 1 ≤ s0.max_attempts) : isTerminal (execute o s0).state := by
  show isTerminal (loop o (initState s0).max_attempts
    (planner_node o.planner (initState s0))).state
  apply loop_terminal
  · exact h
  · rw [planner_node_attempt, planner_node_max]
    show s0.max_attempts ≤ 0 + s0.max_attempts
    omega

theorem execute_execs_le (o : RunOracle) (s0 : AgentWorkflowState) :
    (execute o s0).execs ≤ s0.max_attempts := by
  show (loop o (initState s0).max_attempts
    (planner_node o.planner (initState s0))).execs ≤ s0.max_attempts
  exact loop_execs_le o _ _

theorem execute_execs_all_fail (o : RunOracle) (s0 : AgentWorkflowState)
    (hall : ∀ k, passedOf (o.tester k) = false) :
    (execute o s0).execs = s0.max_attempts := by
  show (loop o (initState s0).max_attempts
    (planner_node o.planner (initState s0))).execs = s0.max_attempts
  apply loop_execs_all_fail o hall
  rw [planner_node_attempt, planner_node_max]
  show 0 + s0.max_attempts = s0.max_attempts
  omega

theorem execute_attempt_lt (o : RunOracle) (s0 : AgentWorkflowState)
    (h : 1 ≤ s0.max_attempts) :
    (execute o s0).state.attempt_count < s0.max_attempts := by
  show (loop o (initState s0).max_attempts
    (planner_node o.planner (initState s0))).state.attempt_count < s0.max_attempts
  have hpm : (planner_node o.planner (initState s0)).max_attempts = s0.max_attempts := by
    rw [planner_node_max]
    rfl
  have := loop_attempt_lt o (initState s0).max_attempts
    (planner_node o.planner (initState s0)) (by
      rw [planner_node_attempt, planner_node_max]
      show 0 < s0.max_attempts
      omega)
  rw [hpm] at this
  exact this

theorem find_map_keyset (k : String) (v : CtxVal) :
    ∀ l : List (String × CtxVal), l.any (fun p => p.1 = k) = true →
      (l.map (fun p => if p.1 = k then (k, v) else p)).find? (fun p => p.1 = k) =
        some (k, v) := by
  intro l
  induction l with
  | nil => intro h; cases h
  | cons hd tl ih =>
    intro h
    by_cases hk : hd.1 = k
    · rw [List.map_cons, if_pos hk,
        List.find?_cons_of_pos _ (by simp only [decide_eq_true_eq])]
    · have htl : tl.any (fun p => p.1 = k) = true := by
        simp only [List.any_cons] at h
        rcases Bool.or_eq_true_iff.mp h with h1 | h1
        · exact absurd (by simpa using h1) hk
        · exact h1
      rw [List.map_cons, if_neg hk,
        List.find?_cons_of_neg _ (by simp only [decide_eq_true_eq]; exact hk)]
      exact ih htl

theorem find_map_other (k k' : String) (v : CtxVal) (hne : k ≠ k') :
    ∀ l : List (String × CtxVal),
      (l.map (fun p => if p.1 = k' then (k', v) else p)).find? (fun p => p.1 = k) =
        l.find? (fun p => p.1 = k) := by
  intro l
  induction l with
  | nil => rfl
  | cons hd tl ih =>
    by_cases hk : hd.1 = k'
    · have hdk : ¬ hd.1 = k := fun h => hne (h ▸ hk)
      rw [List.map_cons, if_pos hk,
        List.find?_cons_of_neg _
          (by simp only [decide_eq_true_eq]; exact fun h => hne h.symm),
        List.find?_cons_of_neg _ (by simp only [decide_eq_true_eq]; exact hdk)]
      exact ih
    · rw [List.map_cons, if_neg hk]
      by_cases hh : hd.1 = k
      · rw [List.find?_cons_of_pos _ (by simp only [decide_eq_true_eq]; exact hh),
          List.find?_cons_of_pos _ (by simp only [decide_eq_true_eq]; exact hh)]
      · rw [List.find?_cons_of_neg _ (by simp only [decide_eq_true_eq]; exact hh),
          List.find?_cons_of_neg _ (by simp only [decide_eq_true_eq]; exact hh)]
        exact ih

theorem find_append_of_ne (k k' : String) (v : CtxVal) (hne : k ≠ k') :
    ∀ l : List (String × CtxVal),
      (l ++ [(k', v)]).find? (fun p => p.1 = k) = l.find? (fun p => p.1 = k) := by
  intro l
  induction l with
  | nil =>
    show List.find? _ [(k', v)] = none
    rw [List.find?_cons_of_neg _
      (by simp only [decide_eq_true_eq]; exact fun h => hne h.symm)]
    rfl
  | cons hd tl ih =>
    rw [List.cons_append]
    by_cases hh : hd.1 = k
    · rw [List.find?_cons_of_pos _ (by simp only [decide_eq_true_eq]; exact hh),
        List.find?_cons_of_pos _ (by simp only [decide_eq_true_eq]; exact hh)]
    · rw [List.find?_cons_of_neg _ (by simp only [decide_eq_true_eq]; exact hh),
        List.find?_cons_of_neg _ (by simp only [decide_eq_true_eq]; exact hh)]
      exact ih

theorem find_append_self (k : String) (v : CtxVal) :
    ∀ l : List (String × CtxVal), l.any (fun p => p.1 = k) = false →
      (l ++ [(k, v)]).find? (fun p => p.1 = k) = some (k, v) := by
  intro l
  induction l with
  | nil =>
    intro _
    show List.find? _ [(k, v)] = some (k, v)
    rw [List.find?_cons_of_pos _ (by simp only [decide_eq_true_eq])]
  | cons hd tl ih =>
    intro h
    simp only [List.any_cons, Bool.or_eq_false_iff] at h
    rw [List.cons_append,
      List.find?_cons_of_neg _ (by simp only [decide_eq_true_eq]; simpa using h.1)]
    exact ih h.2

theorem ctx_get_set_self (l : List (String × CtxVal)) (k : String) (v : CtxVal) :
    ctx_get (ctx_set l k v) k = some v := by
  unfold ctx_set ctx_get
  split
  next hany =>
    rw [find_map_keyset k v l hany]
    rfl
  next hany =>
    rw [find_append_self k v l (by simp only [Bool.not_eq_true] at hany; exact hany)]
    rfl

theorem ctx_get_set_other (l : List (String × CtxVal)) (k k' : String) (v : CtxVal)
    (hne : k ≠ k') : ctx_get (ctx_set l k' v) k = ctx_get l k := by
  unfold ctx_set ctx_get
  split
  next hany => rw [find_map_other k k' v hne l]
  next hany => rw [find_append_of_ne k k' v hne l]

theorem extract_tasks_ne_nil (p : String) : extract_tasks p ≠ [] := by
  simp only [extract_tasks]
  split
  next => simp [defaultTask]
  next h => exact h

theorem extract_tasks_default (p : String) (h : extractedTasks p = []) :
    extract_tasks p = [defaultTask] := by
  simp only [extract_tasks]
  rw [if_pos h]

/-- C1: for every workflow run with maxAttempts = N ≥ 1, the number of Code/Test
executions before a terminal state is at most N, equals N whenever every attempt
fails validation, and `_should_retry` stops with failure exactly when success is
false and attemptCount + 1 ≥ maxAttempts, evaluated on the pre-Fix state (the
decision runs before `_fixer_node` increments). -/
theorem retry_cap_exact (o : RunOracle) (s0 : AgentWorkflowState)
    (_hN : 1 ≤ s0.max_attempts) :
    (execute o s0).execs ≤ s0.max_attempts
  ∧ ((∀ k, passedOf (o.tester k) = false) → (execute o s0).execs = s0.max_attempts)
  ∧ (∀ s : AgentWorkflowState,
      ((should_retry s).2 = "end" ∧ (should_retry s).1.current_step = AgentStep.failed) ↔
        (s.success = false ∧ s.max_attempts ≤ s.attempt_count + 1)) :=
  ⟨execute_execs_le o s0, fun hall => execute_execs_all_fail o s0 hall,
    fun s => should_retry_route_end_failed s⟩

/-- C1 witness: the all-fail oracle on the default request (maxAttempts = 3)
performs exactly 3 executions. -/
theorem retry_cap_exact_witness :
    (1 ≤ (mkInitialState req0).max_attempts
      ∧ (∀ k, passedOf (oracleFail.tester k) = false))
  ∧ (execute oracleFail (mkInitialState req0)).execs ≤ (mkInitialState req0).max_attempts
  ∧ (execute oracleFail (mkInitialState req0)).execs = (mkInitialState req0).max_attempts :=
  ⟨⟨by decide, fun k => rfl⟩,
   (retry_cap_exact oracleFail (mkInitialState req0) (by decide)).1,
   (retry_cap_exact oracleFail (mkInitialState req0) (by decide)).2.1 (fun k => rfl)⟩

/-- C2: if the Test stage reports passed = true at the current attempt, the loop
terminates on that same iteration (execs = 1, so nothing runs afterwards) in
Complete with success = true, and finalFiles equals that attempt's
filesToCreate ++ filesToUpdate; no bound on the remaining attempt budget is
assumed. -/
theorem test_pass_completes (o : RunOracle) (f : Nat) (s : AgentWorkflowState)
    (hf : 1 ≤ f) (hp : passedOf (o.tester s.attempt_count) = true) :
    (loop o f s).state.current_step = AgentStep.complete
  ∧ (loop o f s).state.success = true
  ∧ (loop o f s).state.final_files =
      (coder_node (o.coder s.attempt_count) s).files_to_create ++
      (coder_node (o.coder s.attempt_count) s).files_to_update
  ∧ (loop o f s).execs = 1 :=
  loop_pass o f s hf hp

/-- C2 witness: with the passing oracle and the last unit of budget, the run
completes immediately. -/
theorem test_pass_completes_witness :
    (1 ≤ 1 ∧ passedOf (oraclePass.tester (mkInitialState req0).attempt_count) = true)
  ∧ ((loop oraclePass 1 (mkInitialState req0)).state.current_step = AgentStep.complete
    ∧ (loop oraclePass 1 (mkInitialState req0)).state.success = true
    ∧ (loop oraclePass 1 (mkInitialState req0)).state.final_files =
        (coder_node (oraclePass.coder (mkInitialState req0).attempt_count)
          (mkInitialState req0)).files_to_create ++
        (coder_node (oraclePass.coder (mkInitialState req0).attempt_count)
          (mkInitialState req0)).files_to_update
    ∧ (loop oraclePass 1 (mkInitialState req0)).execs = 1) :=
  ⟨⟨by decide, rfl⟩, test_pass_completes oraclePass 1 (mkInitialState req0) (by decide) rfl⟩

/-- C6: a status query for a workspace with no stored state returns the defined
empty summary (status idle, current_step "none", progress 0, empty logs and
files); `get_summary` is a total function, so it cannot raise. -/
theorem unknown_workspace_summary (m : List (String × AgentWorkflowState))
    (ws : String) (h : tracker_get m ws = none) :
    get_summary m ws = emptySummary
  ∧ (get_summary m ws).status = "idle"
  ∧ (get_summary m ws).current_step = "none"
  ∧ (get_summary m ws).progress = 0
  ∧ (get_summary m ws).logs = []
  ∧ (get_summary m ws).files_generated = [] := by
  have he : get_summary m ws = emptySummary := by
    unfold get_summary
    rw [h]
  rw [he]
  exact ⟨rfl, rfl, rfl, rfl, rfl, rfl⟩

/-- C6 witness: the empty store knows no workspace. -/
theorem unknown_workspace_summary_witness :
    tracker_get [] "ws-unknown" = none
  ∧ get_summary [] "ws-unknown" = emptySummary :=
  ⟨rfl, (unknown_workspace_summary [] "ws-unknown" rfl).1⟩

/-- C7: on a failed state with recorded validation errors, `_fixer_node`
increments attemptCount by exactly one, appends the fixed-format error block to
plan, stores the joined errors and new attempt number under the reserved context
keys, leaves tasks, file lists and testResult untouched, only appends to logs,
and applying it twice increments attemptCount by one each time. -/
theorem fixer_transform_effects (s : AgentWorkflowState)
    (h1 : s.success = false) (h2 : s.validation_errors ≠ []) :
    (fixer_node s).attempt_count = s.attempt_count + 1
  ∧ (fixer_node s).plan = some (optPlanStr s.plan ++ fixer_block s.validation_errors)
  ∧ ctx_get (fixer_node s).context "previous_errors" =
      some (CtxVal.str (joinNl s.validation_errors))
  ∧ ctx_get (fixer_node s).context "retry_attempt" =
      some (CtxVal.num (s.attempt_count + 1))
  ∧ (fixer_node s).tasks = s.tasks
  ∧ (fixer_node s).files_to_create = s.files_to_create
  ∧ (fixer_node s).files_to_update = s.files_to_update
  ∧ (fixer_node s).test_results = s.test_results
  ∧ (fixer_node s).logs = s.logs ++
      ["[Workflow] Retry attempt " ++ toString (s.attempt_count + 1) ++ "/" ++
       toString s.max_attempts]
  ∧ (fixer_node (fixer_node s)).attempt_count = s.attempt_count + 2
  ∧ (∃ t, (fixer_node (fixer_node s)).logs = s.logs ++ t) := by
  refine ⟨rfl, rfl, ?_, ?_, rfl, rfl, rfl, rfl, rfl, rfl, ?_⟩
  · show ctx_get (ctx_set (ctx_set s.context "previous_errors" _) "retry_attempt" _)
      "previous_errors" = _
    rw [ctx_get_set_other _ _ _ _ (by decide), ctx_get_set_self]
  · show ctx_get (ctx_set (ctx_set s.context "previous_errors" _) "retry_attempt" _)
      "retry_attempt" = _
    rw [ctx_get_set_self]
  · refine ⟨["[Workflow] Retry attempt " ++ toString (s.attempt_count + 1) ++ "/" ++
       toString s.max_attempts,
       "[Workflow] Retry attempt " ++ toString (s.attempt_count + 1 + 1) ++ "/" ++
       toString s.max_attempts], ?_⟩
    rw [fixer_node_logs, fixer_node_logs, fixer_node_attempt, fixer_node_max]
    simp

/-- Concrete failed state exercising the Fix transform. -/
def c7state : AgentWorkflowState :=
  { mkInitialState req0 with success := false,
                             validation_errors := ["SyntaxError: bad token"] }

/-- C7 witness: the Fix transform evaluated on a concrete failed state. -/
theorem fixer_transform_effects_witness :
    (c7state.success = false ∧ c7state.validation_errors ≠ [])
  ∧ (fixer_node c7state).attempt_count = c7state.attempt_count + 1
  ∧ ctx_get (fixer_node c7state).context "retry_attempt" =
      some (CtxVal.num (c7state.attempt_count + 1)) :=
  ⟨⟨rfl, by decide⟩,
   (fixer_transform_effects c7state rfl (by decide)).1,
   (fixer_transform_effects c7state rfl (by decide)).2.2.2.1⟩

/-- C10: attemptCount starts at 0, is preserved by every node except
`_fixer_node` (which adds exactly 1 and only runs on the "retry" route, taken
exactly when success is false and attemptCount + 1 < maxAttempts), and at
termination stays strictly below maxAttempts, i.e. at most maxAttempts - 1. -/
theorem attempt_count_below_cap (o : RunOracle) (s0 : AgentWorkflowState)
    (hN : 1 ≤ s0.max_attempts) :
    (initState s0).attempt_count = 0
  ∧ (execute o s0).state.attempt_count < s0.max_attempts
  ∧ (execute o s0).state.attempt_count ≤ s0.max_attempts - 1
  ∧ (∀ r s, (coder_node r s).attempt_count = s.attempt_count)
  ∧ (∀ r s, (tester_node r s).attempt_count = s.attempt_count)
  ∧ (∀ s, (should_retry s).1.attempt_count = s.attempt_count)
  ∧ (∀ s, (fixer_node s).attempt_count = s.attempt_count + 1)
  ∧ (∀ s, (should_retry s).2 = "retry" ↔
        (s.success = false ∧ s.attempt_count + 1 < s.max_attempts)) := by
  have hlt := execute_attempt_lt o s0 hN
  exact ⟨rfl, hlt, by omega, coder_node_attempt, tester_node_attempt,
    should_retry_fst_attempt, fixer_node_attempt, should_retry_route_retry⟩

/-- C10 witness: with the all-fail oracle the final attemptCount is at most 2. -/
theorem attempt_count_below_cap_witness :
    1 ≤ (mkInitialState req0).max_attempts
  ∧ (execute oracleFail (mkInitialState req0)).state.attempt_count ≤
      (mkInitialState req0).max_attempts - 1 :=
  ⟨by decide,
   (attempt_count_below_cap oracleFail (mkInitialState req0) (by decide)).2.2.1⟩

/-- C3 counterexample: `StatusTracker.update` stores `state.copy()`, a shallow
dict copy, so the snapshot shares the log list object with the live state.
After publishing and then appending "later line" to the live state's logs, the
snapshot fetched for "ws1" reads ["start", "later line"], not the published
["start"] — refuting the claim that later mutations never change the snapshot. -/
theorem snapshot_shares_lists_counterexample :
    ((c3store.states "ws1").map (fun snap => read_logs c3heap1 snap) =
      some ["start", "later line"])
  ∧ ((c3store.states "ws1").map (fun snap => read_logs c3heap0 snap) = some ["start"])
  ∧ some ["start", "later line"] ≠ some (["start"] : List String) := by
  decide

/-- C3 amended: publish stores a shallow copy — the snapshot's top-level fields
are fixed at publish time (rebinding a top-level key of the live dict later
cannot reach it), but the nested list objects remain shared, so an in-place
append to the live logs is visible through the snapshot. -/
theorem publish_shallow_copy (t : RefStatusStore) (h : ListHeap) (ws : String)
    (live : RefWorkflowState) (line : String) :
    (tracker_update t ws live).states ws = some live
  ∧ (∀ snap, (tracker_update t ws live).states ws = some snap →
        snap.logs = live.logs
      ∧ read_logs (heap_append h live.logs line) snap = read_logs h snap ++ [line]
      ∧ snap.current_step = live.current_step) := by
  constructor
  · simp [tracker_update]
  · intro snap hsnap
    have heq : snap = live := by
      simp [tracker_update] at hsnap
      exact hsnap.symm
    subst heq
    refine ⟨rfl, ?_, rfl⟩
    simp [read_logs, heap_append]

/-- C3 amended witness: the concrete publish/append scenario. -/
theorem publish_shallow_copy_witness :
    c3store.states "ws1" = some c3live
  ∧ read_logs c3heap1 c3live = read_logs c3heap0 c3live ++ ["later line"] :=
  ⟨(publish_shallow_copy ⟨fun _ => none⟩ c3heap0 "ws1" c3live "later line").1,
   ((publish_shallow_copy ⟨fun _ => none⟩ c3heap0 "ws1" c3live "later line").2
      c3live
      (publish_shallow_copy ⟨fun _ => none⟩ c3heap0 "ws1" c3live "later line").1).2.1⟩

/-- C4 counterexample: on a run that plans, codes and passes its first test, the
state machine performs 4 transitions (Idle→Planning, Planning→Coding,
Coding→Testing, Testing→Complete) but `generate_code` publishes only 2
snapshots (initial and final), so the published sequence does not contain one
snapshot per transition. -/
theorem publish_per_transition_counterexample :
    (publishedStates oraclePass req0).length = 2
  ∧ num_transitions oraclePass req0 = 4
  ∧ (publishedStates oraclePass req0).length ≠ num_transitions oraclePass req0 := by
  refine ⟨rfl, by decide, by decide⟩

/-- C4 amended: during one workflow execution the Engine publishes the
WorkflowState exactly twice — the initial Idle state before execution and the
terminal (Complete or Failed) final state after it — not after every stage
transition. -/
theorem publish_initial_and_final (o : RunOracle) (req : GenRequest) :
    (publishedStates o req).length = 2
  ∧ (publishedStates o req).head? = some (mkInitialState req)
  ∧ (mkInitialState req).current_step = AgentStep.idle
  ∧ ∃ fin, (publishedStates o req).getLast? = some fin ∧ isTerminal fin := by
  refine ⟨rfl, rfl, rfl, ⟨(execute o (mkInitialState req)).state, ?_, ?_⟩⟩
  · rfl
  · exact execute_terminal o (mkInitialState req) (show (1 : Nat) ≤ 3 by norm_num)

/-- C5: the progress values of the published snapshot sequence of one run are
non-decreasing, and the derived mapping is exactly Idle 0.0, Planning 0.2,
Coding 0.5, Testing 0.8, Fixing 0.8, Failed 0.8, Complete 1.0. -/
theorem published_progress_monotone (o : RunOracle) (req : GenRequest) :
    List.Chain' (fun a b => a ≤ b)
      ((publishedStates o req).map (fun st => (state_summary st).progress))
  ∧ progress_map AgentStep.idle = 0
  ∧ progress_map AgentStep.planning = 0.2
  ∧ progress_map AgentStep.coding = 0.5
  ∧ progress_map AgentStep.testing = 0.8
  ∧ progress_map AgentStep.fixing = 0.8
  ∧ progress_map AgentStep.failed = 0.8
  ∧ progress_map AgentStep.complete = 1 := by
  refine ⟨?_, rfl, rfl, rfl, rfl, rfl, rfl, rfl⟩
  have hterm := execute_terminal o (mkInitialState req) (show (1 : Nat) ≤ 3 by norm_num)
  have hchain : (state_summary (mkInitialState req)).progress ≤
      (state_summary (execute o (mkInitialState req)).state).progress := by
    have h0 : (state_summary (mkInitialState req)).progress = 0 := rfl
    have h1 : (state_summary (execute o (mkInitialState req)).state).progress =
        progress_map (execute o (mkInitialState req)).state.current_step := rfl
    rw [h0, h1]
    rcases hterm with hc | hf
    · rw [hc]
      norm_num [progress_map]
    · rw [hf]
      norm_num [progress_map]
  simp only [publishedStates, List.map]
  exact List.chain'_cons.mpr ⟨hchain, List.chain'_singleton _⟩

/-- C8: stage and engine failures never propagate as raised faults. The engine
`except` branch records the fault in errors and forces Failed with success
false; for every oracle (including ones whose stages raise) the run reaches a
terminal state; and a Plan-stage failure is recorded in errors while the
pipeline still proceeds into Coding. -/
theorem failures_absorbed :
    (∀ (ps : AgentWorkflowState) (e : String),
        (engineCatch ps e).current_step = AgentStep.failed
      ∧ (engineCatch ps e).success = false
      ∧ (engineCatch ps e).errors = ps.errors ++ ["[Workflow Error] " ++ e])
  ∧ (∀ (o : RunOracle) (s0 : AgentWorkflowState), 1 ≤ s0.max_attempts →
        isTerminal (execute o s0).state)
  ∧ (∀ (o : RunOracle) (s0 : AgentWorkflowState) (e : String),
        o.planner = Except.error e → 1 ≤ s0.max_attempts →
        ("[Planner Error] " ++ e) ∈ (execute o s0).state.errors
      ∧ "[Workflow] Running Coder agent..." ∈ (execute o s0).state.logs) := by
  refine ⟨fun ps e => ⟨rfl, rfl, rfl⟩, fun o s0 h => execute_terminal o s0 h, ?_⟩
  intro o s0 e ho hN
  constructor
  · show ("[Planner Error] " ++ e) ∈ (loop o (initState s0).max_attempts
      (planner_node o.planner (initState s0))).state.errors
    apply loop_errors_mem
    rw [ho]
    simp [planner_node, planner_plan]
  · show "[Workflow] Running Coder agent..." ∈ (loop o (initState s0).max_attempts
      (planner_node o.planner (initState s0))).state.logs
    exact loop_run_coder_log o _ _ hN

/-- C8 witness: a planner that raises "connection refused" on the default
request still yields a terminal run that recorded the error and ran the Coder. -/
theorem failures_absorbed_witness :
    (oraclePlanBoom.planner = Except.error "connection refused"
      ∧ 1 ≤ (mkInitialState req0).max_attempts)
  ∧ ("[Planner Error] " ++ "connection refused") ∈
      (execute oraclePlanBoom (mkInitialState req0)).state.errors
  ∧ "[Workflow] Running Coder agent..." ∈
      (execute oraclePlanBoom (mkInitialState req0)).state.logs
  ∧ isTerminal (execute oraclePlanBoom (mkInitialState req0)).state :=
  ⟨⟨rfl, by decide⟩,
   (failures_absorbed.2.2 oraclePlanBoom (mkInitialState req0) "connection refused"
      rfl (by decide)).1,
   (failures_absorbed.2.2 oraclePlanBoom (mkInitialState req0) "connection refused"
      rfl (by decide)).2,
   failures_absorbed.2.1 oraclePlanBoom (mkInitialState req0) (by decide)⟩

/-- C9: when stage output cannot be parsed, each parser degrades to its default
instead of failing: `_parse_code_output` yields empty file lists whenever no
JSON region exists or `json.loads` fails; `_extract_tasks` always yields a
non-empty list and exactly the single default task when no line qualifies; and
`_parse_test_output` falls back to the keyword heuristic for its pass verdict.
All three are total functions, so none can raise. -/
theorem parser_fallbacks :
    (∀ (jl : List Char → Option FilesData) (output : List Char),
        (extractJsonRegion output = none ∨
          (∃ js, extractJsonRegion output = some js ∧ jl js = none)) →
        parse_code_output jl output = ⟨[], []⟩)
  ∧ (∀ p : String, extract_tasks p ≠ [] ∧
        (extractedTasks p = [] → extract_tasks p = [defaultTask]))
  ∧ (∀ (jt : List Char → Option (Bool × List String)) (output : List Char),
        (extractJsonRegion output = none ∨
          (∃ js, extractJsonRegion output = some js ∧ jt js = none)) →
        parse_test_output jt output = heuristicTestResult output
      ∧ (parse_test_output jt output).passed = !hasErrorKeyword output) := by
  refine ⟨?_, fun p => ⟨extract_tasks_ne_nil p, extract_tasks_default p⟩, ?_⟩
  · intro jl output h
    rcases h with h | ⟨js, hjs, hnone⟩
    · simp only [parse_code_output, h]
    · simp only [parse_code_output, hjs, hnone]
  · intro jt output h
    have hr : parse_test_output jt output = heuristicTestResult output := by
      rcases h with h | ⟨js, hjs, hnone⟩
      · simp only [parse_test_output, h]
      · simp only [parse_test_output, hjs, hnone]
    exact ⟨hr, by rw [hr]; rfl⟩

/-- C9 witness: concrete unparsable outputs hit every fallback — no braces for
the coder parser, prose with no list markers for the task extractor, and a
clean/failing text pair for the tester heuristic. -/
theorem parser_fallbacks_witness :
    extractJsonRegion "no json here".toList = none
  ∧ parse_code_output (fun _ => none) "no json here".toList = ⟨[], []⟩
  ∧ extractedTasks "just prose with no list markers" = []
  ∧ extract_tasks "just prose with no list markers" = [defaultTask]
  ∧ (parse_test_output (fun _ => none) "all good".toList).passed = true
  ∧ (parse_test_output (fun _ => none) "an error: x = 1".toList).passed = false :=
  ⟨by decide,
   parser_fallbacks.1 (fun _ => none) "no json here".toList (Or.inl (by decide)),
   by decide,
   (parser_fallbacks.2.1 "just prose with no list markers").2 (by decide),
   by rw [(parser_fallbacks.2.2 (fun _ => none) "all good".toList
        (Or.inl (by decide))).2]; decide,
   by rw [(parser_fallbacks.2.2 (fun _ => none) "an error: x = 1".toList
        (Or.inl (by decide))).2]; decide⟩
